import Mathlib

/-!
# Verification of the PAC-CS email-thread classifier

A shallow embedding of `src/email_classifier/classify_cli.py` and
`src/email_classifier/rules.py`, together with theorems settling the
frozen claims about the program.

Modelling conventions:
* A JSON field that may be absent, `null`, or carry a value is a `Field α`.
* Python `dict.setdefault` fills only *absent* keys; present-but-`null`
  values are untouched.  This distinction is modelled exactly.
* Python exceptions (`KeyError` from `d["k"]`, `TypeError` from
  `str + None`) are modelled with `Except PyErr`.
* Python `re.search` truthiness is modelled by an executable regular
  expression engine (`RE`, `reSearch`) supporting the constructs the
  source patterns use: literals, alternation, option, Kleene star,
  character classes and the `\b` word-boundary assertion.  Matching is
  case-insensitive on ASCII (`Char.toLower`), mirroring `re.IGNORECASE`;
  the Unicode-aware parts of Python's `\w` and `lower()` are
  approximated (non-ASCII codepoints count as word characters), which
  is exercised by none of the theorems below — all concrete inputs are
  ASCII.
* `hashlib.sha1(...).hexdigest()` is modelled by a full executable
  SHA-1 over byte lists (`sha1Hex`), with bytes as `Nat` reduced
  mod 2^32 where the algorithm wraps.
-/

namespace EmailClassifier

/-- A JSON object field: absent from the object, present as `null`, or
present with a value. -/
inductive Field (α : Type) where
  | absent : Field α
  | null : Field α
  | val : α → Field α
deriving DecidableEq, Repr

/-- A message record, `{timestamp, from, to, body}`; every field may be
absent or null (cf. spec data model). -/
structure Message where
  timestamp : Field String
  sender : Field String
  recipients : Field (List String)
  body : Field String
deriving DecidableEq, Repr

/-- A thread record `{subject, messages}`. -/
structure Thread where
  subject : Field String
  messages : Field (List Message)
deriving DecidableEq, Repr

/-- Top-level input of `classify_thread`: either JSON `null` or an
object whose `thread` field may be absent, null, or a thread record. -/
inductive TopData where
  | null : TopData
  | obj : Field Thread → TopData
deriving DecidableEq, Repr

/-- Python exceptions that the modelled code can raise. -/
inductive PyErr where
  | keyErr : PyErr
  | typeErr : PyErr
deriving DecidableEq, Repr

/-! ## Regular-expression engine

Brzozowski-derivative matcher extended with the `\b` word-boundary
assertion; nullability and derivatives carry the surrounding characters
so that boundary assertions can be decided positionally. -/

/-- Regular expressions over characters: empty word, empty language,
character class, concatenation, alternation, star, and the `\b`
word-boundary assertion. -/
inductive RE where
  | eps : RE
  | empt : RE
  | cls : (Char → Bool) → RE
  | cat : RE → RE → RE
  | alt : RE → RE → RE
  | star : RE → RE
  | bnd : RE

/-- Word characters for `\b` (Python `\w`): ASCII alphanumerics,
underscore; non-ASCII codepoints are approximated as word characters. -/
def isWordChar (c : Char) : Bool :=
  c.isAlphanum || c == '_' || decide (c.toNat ≥ 128)

/-- Is there a word boundary between the two (optional) surrounding
characters? -/
def isBoundary (prev next : Option Char) : Bool :=
  let w : Option Char → Bool := fun o => (o.map isWordChar).getD false
  w prev != w next

/-- Smart alternation (drops the empty language). -/
def mkAlt : RE → RE → RE
  | .empt, b => b
  | a, .empt => a
  | a, b => .alt a b

/-- Smart concatenation (absorbs the empty language and empty word). -/
def mkCat : RE → RE → RE
  | .empt, _ => .empt
  | _, .empt => .empt
  | .eps, b => b
  | a, .eps => a
  | a, b => .cat a b

/-- Does `r` accept the empty word at a position whose neighbouring
characters are `prev` and `next`?  (Assertions make nullability
context-dependent.) -/
def nullB (prev next : Option Char) : RE → Bool
  | .eps => true
  | .empt => false
  | .cls _ => false
  | .bnd => isBoundary prev next
  | .cat a b => nullB prev next a && nullB prev next b
  | .alt a b => nullB prev next a || nullB prev next b
  | .star _ => true

/-- Derivative of `r` by character `c`, with `prev` the character
before `c` in the text (for deciding assertions that match the empty
word just before `c`). -/
def deriv (prev : Option Char) (c : Char) : RE → RE
  | .eps => .empt
  | .empt => .empt
  | .bnd => .empt
  | .cls p => if p c then .eps else .empt
  | .cat a b =>
      mkAlt (mkCat (deriv prev c a) b)
        (if nullB prev (some c) a then deriv prev c b else .empt)
  | .alt a b => mkAlt (deriv prev c a) (deriv prev c b)
  | .star a => mkCat (deriv prev c a) (.star a)

/-- Does `r` match some prefix of `s`, where `prev` is the character
just before `s` in the enclosing text? -/
def matchPref (r : RE) (prev : Option Char) : List Char → Bool
  | [] => nullB prev none r
  | c :: cs => nullB prev (some c) r || matchPref (deriv prev c r) (some c) cs

/-- Does `r` match starting at some position of `s` (with `prev` the
character before `s`)? -/
def searchFrom (r : RE) (prev : Option Char) : List Char → Bool
  | [] => matchPref r prev []
  | c :: cs => matchPref r prev (c :: cs) || searchFrom r (some c) cs

/-- Truthiness of Python `r.search(s)`. -/
def reSearch (r : RE) (s : String) : Bool :=
  searchFrom r none s.data

/-! ### Pattern-building helpers (transcription of the `re` syntax) -/

/-- A single literal character, case-insensitively (`re.IGNORECASE`). -/
def lit (c : Char) : RE := .cls (fun x => x.toLower == c.toLower)

/-- A literal string. -/
def strRE (s : String) : RE := s.data.foldr (fun c r => RE.cat (lit c) r) .eps

/-- `(?:r₁|r₂|...)`. -/
def alts : List RE → RE
  | [] => .empt
  | [r] => r
  | r :: rs => .alt r (alts rs)

/-- `r?`. -/
def opt (r : RE) : RE := .alt r .eps

/-- `\s*`. -/
def wsStar : RE := .star (.cls Char.isWhitespace)

/-- Words separated by `\s*`, e.g. `see\s*you`. -/
def seqWs : List String → RE
  | [] => .eps
  | [w] => strRE w
  | w :: ws => .cat (strRE w) (.cat wsStar (seqWs ws))

/-- `\b(?:...)\b`. -/
def bword (r : RE) : RE := .cat .bnd (.cat r .bnd)

/-- `\d`. -/
def digitRE : RE := .cls Char.isDigit

/-! ### The compiled patterns of `rules.py` -/

/-- `RE_TIME_PROPOSE`:
`(?:(?:meet(?:ing)?|schedule|call|zoom|teams|hangout|cuộc\s*họp|đặt\s*lịch|họp)\b)`
`|(?:\b(?:mon|tue|wed|thu|fri|sat|sun)\b)|(?:\bth(?:ứ)?\s*[2-7]\b)`
`|(?:\b\d{1,2}[:h\.]\d{2}\b)` (IGNORECASE). -/
def RE_TIME_PROPOSE : RE := alts [
  .cat (alts [
    .cat (strRE "meet") (opt (strRE "ing")),
    strRE "schedule", strRE "call", strRE "zoom", strRE "teams", strRE "hangout",
    seqWs ["cuộc", "họp"], seqWs ["đặt", "lịch"], strRE "họp"]) .bnd,
  bword (alts [strRE "mon", strRE "tue", strRE "wed", strRE "thu",
    strRE "fri", strRE "sat", strRE "sun"]),
  .cat .bnd (.cat (strRE "th") (.cat (opt (strRE "ứ"))
    (.cat wsStar (.cat (.cls (fun c => decide ('2' ≤ c) && decide (c ≤ '7'))) .bnd)))),
  .cat .bnd (.cat digitRE (.cat (opt digitRE)
    (.cat (.cls (fun c => c == ':' || c == 'h' || c == '.'))
      (.cat digitRE (.cat digitRE .bnd)))))]

/-- `RE_TIME_CONFIRM`:
`\b(?:confirm(?:ed)?|see\s*you|approved|ok(?:ay)?|sounds\s*good|`
`đã\s*xác\s*nhận|xác\s*nhận|đồng\s*ý|hẹn\s*gặp)\b` (IGNORECASE). -/
def RE_TIME_CONFIRM : RE := bword (alts [
  .cat (strRE "confirm") (opt (strRE "ed")),
  seqWs ["see", "you"], strRE "approved",
  .cat (strRE "ok") (opt (strRE "ay")),
  seqWs ["sounds", "good"],
  seqWs ["đã", "xác", "nhận"], seqWs ["xác", "nhận"],
  seqWs ["đồng", "ý"], seqWs ["hẹn", "gặp"]])

/-- `RE_TIME_RESCHED`:
`\b(?:re-?schedule|resched|move|postpone|delay|push|đổi\s*lịch|hoãn|lùi|chuyển)\b`. -/
def RE_TIME_RESCHED : RE := bword (alts [
  .cat (strRE "re") (.cat (opt (lit '-')) (strRE "schedule")),
  strRE "resched", strRE "move", strRE "postpone", strRE "delay", strRE "push",
  seqWs ["đổi", "lịch"], strRE "hoãn", strRE "lùi", strRE "chuyển"])

/-- `RE_ATTACH_ATTACHED`:
`\b(?:attached?|attachment|see\s*attachment|pfa|enclosed|đính\s*kèm|tệp\s*đính\s*kèm)\b`. -/
def RE_ATTACH_ATTACHED : RE := bword (alts [
  .cat (strRE "attache") (opt (lit 'd')),
  strRE "attachment", seqWs ["see", "attachment"], strRE "pfa", strRE "enclosed",
  seqWs ["đính", "kèm"], seqWs ["tệp", "đính", "kèm"]])

/-- `RE_ATTACH_EXPECT`:
`(?:(?:send|resend|provide|share|forward)\s*(?:me|us|it)?\s*(?:the\s*)?`
`(?:file|doc(?:ument)?s?|attachment|link)\b)`
`|(?:vui\s*lòng|xin)\s*(?:gửi|trả\s*lời|chia\s*se)\s*(?:file|tài\s*liệu|đính\s*kèm)\b`
`|(?:sẽ\s*gửi|gửi\s*sau|chờ\s*file)`. -/
def RE_ATTACH_EXPECT : RE := alts [
  .cat (alts [strRE "send", strRE "resend", strRE "provide", strRE "share", strRE "forward"])
    (.cat wsStar (.cat (opt (alts [strRE "me", strRE "us", strRE "it"]))
      (.cat wsStar (.cat (opt (.cat (strRE "the") wsStar))
        (.cat (alts [strRE "file",
            .cat (strRE "doc") (.cat (opt (strRE "ument")) (opt (lit 's'))),
            strRE "attachment", strRE "link"]) .bnd))))),
  .cat (alts [seqWs ["vui", "lòng"], strRE "xin"])
    (.cat wsStar (.cat (alts [strRE "gửi", seqWs ["trả", "lời"], seqWs ["chia", "se"]])
      (.cat wsStar (.cat (alts [strRE "file", seqWs ["tài", "liệu"], seqWs ["đính", "kèm"]])
        .bnd)))),
  alts [seqWs ["sẽ", "gửi"], seqWs ["gửi", "sau"], seqWs ["chờ", "file"]]]

/-- `RE_URGENT`:
`\b(?:urgent|asap|eod|by\s*eod|by\s*tomorrow|today|khẩn|gấp|ngay|trong\s*ngày|cuối\s*ngày|sớm\s*nhất)\b`. -/
def RE_URGENT : RE := bword (alts [
  strRE "urgent", strRE "asap", strRE "eod", seqWs ["by", "eod"],
  seqWs ["by", "tomorrow"], strRE "today",
  strRE "khẩn", strRE "gấp", strRE "ngay",
  seqWs ["trong", "ngày"], seqWs ["cuối", "ngày"], seqWs ["sớm", "nhất"]])

/-- `RE_LOW`: `\b(?:no\s*rush|whenever|when\s*free|lúc\s*rảnh|không\s*vội)\b`. -/
def RE_LOW : RE := bword (alts [
  seqWs ["no", "rush"], strRE "whenever", seqWs ["when", "free"],
  seqWs ["lúc", "rảnh"], seqWs ["không", "vội"]])

/-- `RE_TONE_POS`:
`\b(?:thanks|thank\s*you|appreciate|much\s*appreciated|cheers|`
`cảm\s*ơn|trân\s*trọng|tuyệt\s*vời|rất\s*tốt)\b`. -/
def RE_TONE_POS : RE := bword (alts [
  strRE "thanks", seqWs ["thank", "you"], strRE "appreciate",
  seqWs ["much", "appreciated"], strRE "cheers",
  seqWs ["cảm", "ơn"], seqWs ["trân", "trọng"],
  seqWs ["tuyệt", "vời"], seqWs ["rất", "tốt"]])

/-- `RE_TONE_FRUS`:
`\b(?:sorry|apolog(?:y|ise|ize)|frustrat(?:ed|ing)|not\s*happy|angry|`
`delay(?:ed)?|blocked|issue|problem|`
`xin\s*lỗi|không\s*hài\s*lòng|bực|chậm|trục\s*trặc|vấn\s*đề)\b`. -/
def RE_TONE_FRUS : RE := bword (alts [
  strRE "sorry",
  .cat (strRE "apolog") (alts [lit 'y', strRE "ise", strRE "ize"]),
  .cat (strRE "frustrat") (alts [strRE "ed", strRE "ing"]),
  seqWs ["not", "happy"], strRE "angry",
  .cat (strRE "delay") (opt (strRE "ed")),
  strRE "blocked", strRE "issue", strRE "problem",
  seqWs ["xin", "lỗi"], seqWs ["không", "hài", "lòng"],
  strRE "bực", strRE "chậm", seqWs ["trục", "trặc"], seqWs ["vấn", "đề"]])

/-- `RE_FOLLOWUP`: `\b(?:follow-?up|gentle\s*reminder|ping|nhắc)\b`. -/
def RE_FOLLOWUP : RE := bword (alts [
  .cat (strRE "follow") (.cat (opt (lit '-')) (strRE "up")),
  seqWs ["gentle", "reminder"], strRE "ping", strRE "nhắc"])

/-- `RE_RESOLVED`:
`\b(?:resolved|fixed|done|completed|closed|xong|hoàn\s*tất|đã\s*xử\s*lý)\b`. -/
def RE_RESOLVED : RE := bword (alts [
  strRE "resolved", strRE "fixed", strRE "done", strRE "completed", strRE "closed",
  strRE "xong", seqWs ["hoàn", "tất"], seqWs ["đã", "xử", "lý"]])

/-- `RE_REVIEW`: `\b(?:review|approve|approval|duyệt|kiểm\s*tra|xác\s*nhận)\b`. -/
def RE_REVIEW : RE := bword (alts [
  strRE "review", strRE "approve", strRE "approval",
  strRE "duyệt", seqWs ["kiểm", "tra"], seqWs ["xác", "nhận"]])

/-- `RE_EDIT`: `\b(?:edit|revise|revision|chỉnh\s*sửa|sửa)\b`. -/
def RE_EDIT : RE := bword (alts [
  strRE "edit", strRE "revise", strRE "revision",
  seqWs ["chỉnh", "sửa"], strRE "sửa"])

/-- `RE_PROVIDE_DOCS`: `\b(?:doc(?:ument)?s?|file|tài\s*liệu)\b`. -/
def RE_PROVIDE_DOCS : RE := bword (alts [
  .cat (strRE "doc") (.cat (opt (strRE "ument")) (opt (lit 's'))),
  strRE "file", seqWs ["tài", "liệu"]])

/-- `RE_MEET`: `\b(?:meet(?:ing)?|schedule|call|họp|lịch|zoom)\b`. -/
def RE_MEET : RE := bword (alts [
  .cat (strRE "meet") (opt (strRE "ing")),
  strRE "schedule", strRE "call", strRE "họp", strRE "lịch", strRE "zoom"])

/-! ## SHA-1 (`hashlib.sha1(...).hexdigest()`)

Bytes and 32-bit words are `Nat`, reduced mod `2^32` wherever the
algorithm wraps. -/

/-- Truncate to a 32-bit word. -/
def w32 (n : Nat) : Nat := n % 4294967296

/-- Rotate a 32-bit word left by `k`. -/
def rotl32 (k n : Nat) : Nat := w32 ((n % 4294967296) <<< k) ||| ((n % 4294967296) >>> (32 - k))

/-- UTF-8 encoding of one character (standard 1–4 byte forms). -/
def encodeChar (c : Char) : List Nat :=
  let n := c.toNat
  if n < 128 then [n]
  else if n < 2048 then [192 + n / 64, 128 + n % 64]
  else if n < 65536 then [224 + n / 4096, 128 + n / 64 % 64, 128 + n % 64]
  else [240 + n / 262144, 128 + n / 4096 % 64, 128 + n / 64 % 64, 128 + n % 64]

/-- UTF-8 encoding of a string, as a byte list (`s.encode("utf-8")`). -/
def utf8Bytes (s : String) : List Nat := (s.data.map encodeChar).flatten

/-- Big-endian byte list of width `w` for value `n`. -/
def beBytes : Nat → Nat → List Nat
  | 0, _ => []
  | w + 1, n => beBytes w (n / 256) ++ [n % 256]

/-- SHA-1 padding: append `0x80`, zero-pad to 56 mod 64, append the
bit length as 8 big-endian bytes. -/
def padMsg (msg : List Nat) : List Nat :=
  let len := msg.length
  msg ++ 128 :: List.replicate ((119 - len % 64) % 64) 0 ++ beBytes 8 (8 * len)

/-- Group a byte list into big-endian 32-bit words. -/
def toWords : List Nat → List Nat
  | a :: b :: c :: d :: rest => (((a * 256 + b) * 256 + c) * 256 + d) :: toWords rest
  | _ => []

/-- One step of the message-schedule extension: append
`rotl32 1 (w[n-3] xor w[n-8] xor w[n-14] xor w[n-16])`. -/
def extendStep (w : List Nat) : List Nat :=
  let n := w.length
  w ++ [rotl32 1 ((w.getD (n - 3) 0 ^^^ w.getD (n - 8) 0) ^^^
                  (w.getD (n - 14) 0 ^^^ w.getD (n - 16) 0))]

/-- Iterate the message-schedule extension `k` times. -/
def extendW : Nat → List Nat → List Nat
  | 0, w => w
  | k + 1, w => extendW k (extendStep w)

/-- Round function and round constant for round `t`. -/
def sha1FK (t b c d : Nat) : Nat × Nat :=
  if t < 20 then ((b &&& c) ||| ((b ^^^ 4294967295) &&& d), 1518500249)
  else if t < 40 then ((b ^^^ c) ^^^ d, 1859775393)
  else if t < 60 then ((b &&& c) ||| ((b &&& d) ||| (c &&& d)), 2400959708)
  else ((b ^^^ c) ^^^ d, 3395469782)

/-- The 80-round compression loop over the extended schedule. -/
def sha1Loop : Nat → List Nat → Nat × Nat × Nat × Nat × Nat → Nat × Nat × Nat × Nat × Nat
  | _, [], st => st
  | t, wi :: ws, (a, b, c, d, e) =>
    let fk := sha1FK t b c d
    sha1Loop (t + 1) ws (w32 (rotl32 5 a + fk.1 + e + fk.2 + wi), a, rotl32 30 b, c, d)

/-- Process one 64-byte chunk into the running hash state. -/
def sha1Chunk (h : Nat × Nat × Nat × Nat × Nat) (chunk : List Nat) :
    Nat × Nat × Nat × Nat × Nat :=
  let (h0, h1, h2, h3, h4) := h
  let (a, b, c, d, e) := sha1Loop 0 (extendW 64 (toWords chunk)) h
  (w32 (h0 + a), w32 (h1 + b), w32 (h2 + c), w32 (h3 + d), w32 (h4 + e))

/-- Split into 64-byte chunks (fuel-driven so evaluation is structural). -/
def chunks64 : Nat → List Nat → List (List Nat)
  | 0, _ => []
  | _, [] => []
  | fuel + 1, l => l.take 64 :: chunks64 fuel (l.drop 64)

/-- The five 32-bit words of the SHA-1 digest of a byte list. -/
def sha1Words (msg : List Nat) : Nat × Nat × Nat × Nat × Nat :=
  let p := padMsg msg
  (chunks64 p.length p).foldl sha1Chunk
    (1732584193, 4023233417, 2562383102, 271733878, 3285377520)

/-- Lowercase hexadecimal digit for `n < 16` (and `'0'` above 15, a
value never produced by the uses below, which all pass `_ % 16`). -/
def hexDig (n : Nat) : Char := "0123456789abcdef".data.getD n '0'

/-- Eight lowercase hex digits of a 32-bit word, most significant
first. -/
def toHex8 (n : Nat) : List Char :=
  [hexDig (n / 268435456 % 16), hexDig (n / 16777216 % 16),
   hexDig (n / 1048576 % 16), hexDig (n / 65536 % 16),
   hexDig (n / 4096 % 16), hexDig (n / 256 % 16),
   hexDig (n / 16 % 16), hexDig (n % 16)]

/-- `hashlib.sha1(msg).hexdigest()`: the 40-character lowercase
hexadecimal SHA-1 digest of a byte list. -/
def sha1Hex (msg : List Nat) : String :=
  let (h0, h1, h2, h3, h4) := sha1Words msg
  String.mk (toHex8 h0 ++ toHex8 h1 ++ toHex8 h2 ++ toHex8 h3 ++ toHex8 h4)

/-! ## Normalizer (`classify_cli.normalize_thread`) -/

/-- `msg.setdefault(key, default)`: fills the field only when the key
is *absent*; a present-but-null value is left untouched. -/
def setdefault {α : Type} (f : Field α) (d : α) : Field α :=
  match f with
  | .absent => .val d
  | .null => .null
  | .val a => .val a

/-- The effect of the `msg.setdefault` block in `normalize_thread` on
one message record (this mutates the caller's dict in Python). -/
def normalizeMsg (m : Message) : Message :=
  { timestamp := setdefault m.timestamp ""
    sender := setdefault m.sender ""
    recipients := setdefault m.recipients []
    body := setdefault m.body "" }

/-- `(thread or {}).get("subject", "") or ""`: absent, null and the
falsy empty string all yield `""`; any other present string is kept. -/
def subjectOrEmpty (f : Field String) : String :=
  match f with
  | .val s => s
  | _ => ""

/-- `(thread or {}).get("messages", []) or []`. -/
def messagesOrEmpty (f : Field (List Message)) : List Message :=
  match f with
  | .val l => l
  | _ => []

/-- `normalize_thread(thread)`: default-fill subject and messages, and
apply the `setdefault` block to every message.  (In Python the returned
list is the caller's list and the message dicts are updated in place;
the returned pair is the value the rest of `classify_thread` consumes.) -/
def normalize_thread (thread : Thread) : String × List Message :=
  (subjectOrEmpty thread.subject, (messagesOrEmpty thread.messages).map normalizeMsg)

/-! ## Sorting (`classify_cli.sort_messages`) -/

/-- The sort key `m.get("timestamp", "") or ""`: the timestamp string
when present (the `or ""` maps an empty string to itself), `""` when
the field is absent or null. -/
def tsKey (m : Message) : String :=
  match m.timestamp with
  | .val s => s
  | _ => ""

/-- The comparison used for sorting: lexicographic (codepoint) order
on the timestamp keys. -/
def msgLe (a b : Message) : Prop := tsKey a ≤ tsKey b

instance : DecidableRel msgLe := fun a b => inferInstanceAs (Decidable (tsKey a ≤ tsKey b))

instance : IsTotal Message msgLe := ⟨fun a b => le_total (tsKey a) (tsKey b)⟩

instance : IsTrans Message msgLe := ⟨fun _ _ _ h₁ h₂ => le_trans h₁ h₂⟩

/-- `sorted(messages, key=lambda m: m.get("timestamp","") or "")`:
Python's `sorted` is stable; any stable sort by the key is the same
function, and insertion sort is stable. -/
def sort_messages (messages : List Message) : List Message :=
  List.insertionSort msgLe messages

/-! ## Thread identifier (`classify_cli.compute_thread_id`) -/

/-- `messages_sorted[i]["timestamp"]`: raises `KeyError` when the key
is absent; evaluates to `None` when the value is null. -/
def getItem (f : Field String) : Except PyErr (Option String) :=
  match f with
  | .absent => .error .keyErr
  | .null => .ok none
  | .val s => .ok (some s)

/-- `first_ts` / `last_ts`: the raw `timestamp` lookup on the first or
last sorted message, or the string `""` when there are no messages. -/
def endTs (m? : Option Message) : Except PyErr (Option String) :=
  match m? with
  | none => .ok (some "")
  | some m => getItem m.timestamp

/-- `compute_thread_id(subject, messages_sorted)`: SHA-1 hex digest of
the UTF-8 bytes of `subject + first_ts + last_ts`.  String
concatenation with `None` raises `TypeError`; a raised error
propagates in the Python evaluation order (first lookup, last lookup,
concatenation). -/
def compute_thread_id (subject : String) (messages_sorted : List Message) :
    Except PyErr String :=
  match endTs messages_sorted.head? with
  | .error e => .error e
  | .ok first_ts =>
    match endTs messages_sorted.getLast? with
    | .error e => .error e
    | .ok last_ts =>
      match first_ts, last_ts with
      | some f, some l => .ok (sha1Hex (utf8Bytes (subject ++ f ++ l)))
      | _, _ => .error .typeErr

/-- Does a field hold a value (present and non-null)? -/
def Field.isVal {α : Type} : Field α → Bool
  | .val _ => true
  | _ => false

/-- The timestamp key of the first message (`""` for the empty
list). -/
def firstTsOf (messages : List Message) : String :=
  (messages.head?.map tsKey).getD ""

/-- The timestamp key of the last message (`""` for the empty
list). -/
def lastTsOf (messages : List Message) : String :=
  (messages.getLast?.map tsKey).getD ""

/-! ## Label classifier (`rules.classify_labels`) -/

/-- `_lower`: Python `str.lower()` (ASCII case mapping; the theorems
below only exercise ASCII text). -/
def pyLower (s : String) : String := String.mk (s.data.map Char.toLower)

/-- `[ _lower(m.get("body", "")) for m in messages if m.get("body") ]`:
lowercased bodies of the messages whose `body` is a non-empty string
(absent, null and `""` bodies are all falsy and filtered out).  The
same comprehension appears in `classify_labels` and `_last_texts`
(whose extra `m and` guard is vacuous for record-shaped messages). -/
def bodiesOf (messages : List Message) : List String :=
  messages.filterMap (fun m =>
    match m.body with
    | .val s => if s = "" then none else some (pyLower s)
    | _ => none)

/-- `all_text = " ".join(bodies + [subj])`. -/
def allTextOf (subject : String) (messages : List Message) : String :=
  String.intercalate " " (bodiesOf messages ++ [pyLower subject])

/-- `last = _last_texts(messages, k=3)`: the up-to-3 most recent
non-empty bodies (`bodies[-3:]`). -/
def lastOf (messages : List Message) : List String :=
  let b := bodiesOf messages
  b.drop (b.length - 3)

/-- `last1 = last[-1] if last else ""`. -/
def last1Of (messages : List Message) : String :=
  (lastOf messages).getLast?.getD ""

/-- `last_any = " ".join(last)`. -/
def lastAnyOf (messages : List Message) : String :=
  String.intercalate " " (lastOf messages)

/-- The scheduling cascade (Confirm > Reschedule > Propose > None). -/
def schedulingOf (subject : String) (messages : List Message) : String :=
  if reSearch RE_TIME_CONFIRM (lastAnyOf messages) then "CONFIRMED_TIME"
  else if reSearch RE_TIME_RESCHED (lastAnyOf messages) then "RESCHEDULE"
  else if reSearch RE_TIME_PROPOSE (allTextOf subject messages) then "PROPOSED_TIME"
  else "NO_MEETING"

/-- The request-type cascade
(`meet > provide docs > review > edit > provide docs > info`). -/
def requestTypeOf (subject : String) (messages : List Message) : String :=
  if reSearch RE_MEET (allTextOf subject messages)
      || (["PROPOSED_TIME", "CONFIRMED_TIME", "RESCHEDULE"].contains
            (schedulingOf subject messages)) then "SCHEDULE/MEET"
  else if reSearch RE_ATTACH_EXPECT (allTextOf subject messages)
      && !reSearch RE_ATTACH_ATTACHED (allTextOf subject messages) then "PROVIDE_DOCS"
  else if reSearch RE_REVIEW (allTextOf subject messages) then "REVIEW/APPROVE"
  else if reSearch RE_EDIT (allTextOf subject messages) then "EDIT/REVISE"
  else if reSearch RE_PROVIDE_DOCS (allTextOf subject messages) then "PROVIDE_DOCS"
  else "INFO_ONLY"

/-- The multi-label attachments list: append `"ATTACHED"`, then
`"EXPECTING_ATTACHMENT"`, then default to `["NONE_MENTIONED"]`. -/
def attachmentsOf (subject : String) (messages : List Message) : List String :=
  let a1 : List String :=
    if reSearch RE_ATTACH_ATTACHED (allTextOf subject messages) then ["ATTACHED"] else []
  let a2 : List String :=
    if reSearch RE_ATTACH_EXPECT (allTextOf subject messages)
    then a1 ++ ["EXPECTING_ATTACHMENT"] else a1
  if a2 = [] then ["NONE_MENTIONED"] else a2

/-- The urgency cascade. -/
def urgencyOf (subject : String) (messages : List Message) : String :=
  if reSearch RE_URGENT (allTextOf subject messages) then "URGENT-24H"
  else if reSearch RE_LOW (allTextOf subject messages) then "LOW-120H"
  else "STD-48H"

/-- The tone cascade: exclusive match on `last1`, falling back to the
tail window `last_any`, defaulting to `"NEUTRAL"`. -/
def toneOf (messages : List Message) : String :=
  if reSearch RE_TONE_FRUS (last1Of messages) && !reSearch RE_TONE_POS (last1Of messages)
  then "FRUSTRATED"
  else if reSearch RE_TONE_POS (last1Of messages) && !reSearch RE_TONE_FRUS (last1Of messages)
  then "POSITIVE"
  else if reSearch RE_TONE_POS (lastAnyOf messages) && !reSearch RE_TONE_FRUS (lastAnyOf messages)
  then "POSITIVE"
  else if reSearch RE_TONE_FRUS (lastAnyOf messages) && !reSearch RE_TONE_POS (lastAnyOf messages)
  then "FRUSTRATED"
  else "NEUTRAL"

/-- The thread-state cascade (`RESOLVED` on the tail, else `FOLLOW-UP`
on a follow-up cue or more than one message, else `NEW`). -/
def threadStateOf (subject : String) (messages : List Message) : String :=
  if reSearch RE_RESOLVED (lastAnyOf messages) then "RESOLVED"
  else if reSearch RE_FOLLOWUP (allTextOf subject messages) || messages.length > 1
  then "FOLLOW-UP"
  else "NEW"

/-- The six-field label record returned by `classify_labels`. -/
structure Label where
  request_type : String
  urgency : String
  thread_state : String
  scheduling : String
  attachments : List String
  tone : String
deriving DecidableEq, Repr

/-- `classify_labels(subject, messages)`. -/
def classify_labels (subject : String) (messages : List Message) : Label :=
  { request_type := requestTypeOf subject messages
    urgency := urgencyOf subject messages
    thread_state := threadStateOf subject messages
    scheduling := schedulingOf subject messages
    attachments := attachmentsOf subject messages
    tone := toneOf messages }

/-! ## Top-level entry point (`classify_cli.classify_thread`) -/

/-- The result record `{"thread_id": ..., "label": ...}`. -/
structure ClsResult where
  thread_id : String
  label : Label
deriving DecidableEq, Repr

/-- `thread = (data or {}).get("thread", {}) or {}`: JSON `null` data,
an absent `thread` key, a null `thread` and the falsy empty dict all
yield the empty thread record. -/
def threadOf (data : TopData) : Thread :=
  match data with
  | .null => { subject := .absent, messages := .absent }
  | .obj .absent => { subject := .absent, messages := .absent }
  | .obj .null => { subject := .absent, messages := .absent }
  | .obj (.val t) => t

/-- `classify_thread(data)`.  The only failure point is
`compute_thread_id` (string concatenation with a `None` timestamp). -/
def classify_thread (data : TopData) : Except PyErr ClsResult := do
  let (subject, messages) := normalize_thread (threadOf data)
  let messages_sorted := sort_messages messages
  let thread_id ← compute_thread_id subject messages_sorted
  .ok { thread_id := thread_id, label := classify_labels subject messages_sorted }

/-- The caller's data after `classify_thread(data)` returns: the
`setdefault` calls in `normalize_thread` mutate each message dict of
the caller's `messages` list in place, so every message record in the
input is replaced by its normalized version; when `messages` is absent
or null the loop runs over a fresh empty list and nothing in the input
is touched, and no other part of the input is ever written. -/
def inputAfterClassify (data : TopData) : TopData :=
  match data with
  | .obj (.val t) =>
    match t.messages with
    | .val l => .obj (.val { t with messages := .val (l.map normalizeMsg) })
    | _ => data
  | _ => data

instance {ε α : Type} [DecidableEq ε] [DecidableEq α] : DecidableEq (Except ε α) :=
  fun a b =>
  match a, b with
  | .error e, .error e' =>
      if h : e = e' then .isTrue (by rw [h]) else .isFalse (by simp [h])
  | .error _, .ok _ => .isFalse (by simp)
  | .ok _, .error _ => .isFalse (by simp)
  | .ok x, .ok y =>
      if h : x = y then .isTrue (by rw [h]) else .isFalse (by simp [h])

/-! ## Concrete sample inputs used by the theorems below -/

/-- A message with every field absent. -/
def emptyMsg : Message where
  timestamp := .absent
  sender := .absent
  recipients := .absent
  body := .absent

/-- A message whose `timestamp` is present but null, the rest absent. -/
def nullTsMsg : Message where
  timestamp := .null
  sender := .absent
  recipients := .absent
  body := .absent

/-- A message with every field present but null. -/
def allNullMsg : Message where
  timestamp := .null
  sender := .null
  recipients := .null
  body := .null

/-- The empty thread `{}` (both keys absent). -/
def emptyThread : Thread where
  subject := .absent
  messages := .absent

/-- A message with a given timestamp and body, the other fields
absent. -/
def mkMsg (ts body : String) : Message where
  timestamp := .val ts
  sender := .absent
  recipients := .absent
  body := .val body

/-! ## Theorems -/

/-- C1: the claim states that `classify_thread` raises no exception for
any well-typed input, in particular for a message whose `timestamp`
field is present but null.  The code violates this: `setdefault` leaves
the null timestamp in place, and `compute_thread_id` then evaluates
`subject + None`, raising `TypeError`.  This theorem evaluates the code
at that failing input. -/
theorem classify_thread_null_timestamp_typeErr :
    classify_thread (.obj (.val { emptyThread with messages := .val [nullTsMsg] }))
      = .error .typeErr := by decide

/-- C2: the claim states that normalization replaces message fields
that are absent *or null* with defaults.  The code only fills absent
keys (`setdefault`): a message whose four fields are all present but
null passes through `normalize_thread` unchanged — no field becomes
`""` or `[]`.  (The null-subject half of the claim does hold: the
subject is defaulted to `""`.) -/
theorem normalize_thread_keeps_null_fields :
    normalize_thread { subject := .null, messages := .val [allNullMsg] }
      = ("", [allNullMsg]) := by decide

set_option maxRecDepth 8000 in
/-- C10: `classify_thread` on a null top-level value, on data with an
absent `thread` field, and on data with a null `thread` field returns
exactly the result of `classify_thread {"thread": \x7b\x7d}`, which is the
all-defaults label with the digest of three empty strings, and no
error. -/
theorem classify_thread_empty_equivalents :
    classify_thread .null = classify_thread (.obj (.val emptyThread))
  ∧ classify_thread (.obj .absent) = classify_thread (.obj (.val emptyThread))
  ∧ classify_thread (.obj .null) = classify_thread (.obj (.val emptyThread))
  ∧ classify_thread (.obj (.val emptyThread))
      = .ok { thread_id := sha1Hex (utf8Bytes "")
            , label := { request_type := "INFO_ONLY", urgency := "STD-48H"
                       , thread_state := "NEW", scheduling := "NO_MEETING"
                       , attachments := ["NONE_MENTIONED"], tone := "NEUTRAL" } } := by
  refine ⟨rfl, rfl, rfl, ?_⟩
  decide

/-- C7: the attachments label is never empty; it contains `ATTACHED`
iff the already-attached pattern matches `all_text`, contains
`EXPECTING_ATTACHMENT` iff the expect-attachment pattern matches
`all_text`, and equals `["NONE_MENTIONED"]` exactly when neither
matches. -/
theorem attachments_never_empty (subject : String) (messages : List Message) :
    (classify_labels subject messages).attachments ≠ []
  ∧ ("ATTACHED" ∈ (classify_labels subject messages).attachments
       ↔ reSearch RE_ATTACH_ATTACHED (allTextOf subject messages) = true)
  ∧ ("EXPECTING_ATTACHMENT" ∈ (classify_labels subject messages).attachments
       ↔ reSearch RE_ATTACH_EXPECT (allTextOf subject messages) = true)
  ∧ ((classify_labels subject messages).attachments = ["NONE_MENTIONED"]
       ↔ (reSearch RE_ATTACH_ATTACHED (allTextOf subject messages) = false
          ∧ reSearch RE_ATTACH_EXPECT (allTextOf subject messages) = false)) := by
  cases h1 : reSearch RE_ATTACH_ATTACHED (allTextOf subject messages) <;>
    cases h2 : reSearch RE_ATTACH_EXPECT (allTextOf subject messages) <;>
      simp [classify_labels, attachmentsOf, h1, h2]

/-- C3: the scheduling label is a strict priority cascade — a
confirmation match on the tail wins outright (even when a reschedule
keyword also occurs), then a reschedule match on the tail, then a
proposal match on the whole text, else `NO_MEETING`. -/
theorem scheduling_priority_cascade (subject : String) (messages : List Message) :
    (reSearch RE_TIME_CONFIRM (lastAnyOf messages) = true →
       (classify_labels subject messages).scheduling = "CONFIRMED_TIME")
  ∧ (reSearch RE_TIME_CONFIRM (lastAnyOf messages) = false →
     reSearch RE_TIME_RESCHED (lastAnyOf messages) = true →
       (classify_labels subject messages).scheduling = "RESCHEDULE")
  ∧ (reSearch RE_TIME_CONFIRM (lastAnyOf messages) = false →
     reSearch RE_TIME_RESCHED (lastAnyOf messages) = false →
     reSearch RE_TIME_PROPOSE (allTextOf subject messages) = true →
       (classify_labels subject messages).scheduling = "PROPOSED_TIME")
  ∧ (reSearch RE_TIME_CONFIRM (lastAnyOf messages) = false →
     reSearch RE_TIME_RESCHED (lastAnyOf messages) = false →
     reSearch RE_TIME_PROPOSE (allTextOf subject messages) = false →
       (classify_labels subject messages).scheduling = "NO_MEETING") := by
  refine ⟨?_, ?_, ?_, ?_⟩ <;>
    · intros
      simp [classify_labels, schedulingOf, *]

/-- Witness for the C3 cascade at a concrete thread: the tail matches
the confirmation pattern, the full text also matches the reschedule
pattern, and the thread classifies as CONFIRMED_TIME. -/
theorem scheduling_priority_cascade_witness :
    reSearch RE_TIME_CONFIRM
        (lastAnyOf [mkMsg "1" "lets move the call to next week",
                    mkMsg "2" "confirmed, see you then"]) = true
  ∧ reSearch RE_TIME_RESCHED
        (allTextOf "sync" [mkMsg "1" "lets move the call to next week",
                           mkMsg "2" "confirmed, see you then"]) = true
  ∧ (classify_labels "sync" [mkMsg "1" "lets move the call to next week",
                             mkMsg "2" "confirmed, see you then"]).scheduling
      = "CONFIRMED_TIME" :=
  ⟨by decide, by decide,
   (scheduling_priority_cascade "sync"
     [mkMsg "1" "lets move the call to next week",
      mkMsg "2" "confirmed, see you then"]).1 (by decide)⟩

/-- C8: the tone cascade is an exclusive match on the last non-empty
body, falling back to the tail window under the same exclusive rule,
and `NEUTRAL` when no scope is conclusive (a scope matching both or
neither pattern set is inconclusive). -/
theorem tone_exclusive_cascade (subject : String) (messages : List Message) :
    (reSearch RE_TONE_FRUS (last1Of messages) = true →
     reSearch RE_TONE_POS (last1Of messages) = false →
       (classify_labels subject messages).tone = "FRUSTRATED")
  ∧ (reSearch RE_TONE_POS (last1Of messages) = true →
     reSearch RE_TONE_FRUS (last1Of messages) = false →
       (classify_labels subject messages).tone = "POSITIVE")
  ∧ (reSearch RE_TONE_FRUS (last1Of messages) = reSearch RE_TONE_POS (last1Of messages) →
     reSearch RE_TONE_POS (lastAnyOf messages) = true →
     reSearch RE_TONE_FRUS (lastAnyOf messages) = false →
       (classify_labels subject messages).tone = "POSITIVE")
  ∧ (reSearch RE_TONE_FRUS (last1Of messages) = reSearch RE_TONE_POS (last1Of messages) →
     reSearch RE_TONE_FRUS (lastAnyOf messages) = true →
     reSearch RE_TONE_POS (lastAnyOf messages) = false →
       (classify_labels subject messages).tone = "FRUSTRATED")
  ∧ (reSearch RE_TONE_FRUS (last1Of messages) = reSearch RE_TONE_POS (last1Of messages) →
     reSearch RE_TONE_FRUS (lastAnyOf messages) = reSearch RE_TONE_POS (lastAnyOf messages) →
       (classify_labels subject messages).tone = "NEUTRAL") := by
  refine ⟨?_, ?_, ?_, ?_, ?_⟩ <;>
    · intros
      simp_all [classify_labels, toneOf, Bool.and_not_self]

/-- Witness for the C8 cascade: a last body matching the frustration
pattern and not the positive pattern yields FRUSTRATED. -/
theorem tone_exclusive_cascade_witness :
    reSearch RE_TONE_FRUS (last1Of [mkMsg "1" "sorry for the delay, there was an issue"]) = true
  ∧ reSearch RE_TONE_POS (last1Of [mkMsg "1" "sorry for the delay, there was an issue"]) = false
  ∧ (classify_labels "x" [mkMsg "1" "sorry for the delay, there was an issue"]).tone
      = "FRUSTRATED" :=
  ⟨by decide, by decide,
   (tone_exclusive_cascade "x" [mkMsg "1" "sorry for the delay, there was an issue"]).1
     (by decide) (by decide)⟩

/-- The scheduling label can take only its four enumerated values. -/
theorem schedulingOf_mem (subject : String) (messages : List Message) :
    schedulingOf subject messages = "CONFIRMED_TIME"
  ∨ schedulingOf subject messages = "RESCHEDULE"
  ∨ schedulingOf subject messages = "PROPOSED_TIME"
  ∨ schedulingOf subject messages = "NO_MEETING" := by
  unfold schedulingOf
  split_ifs <;> simp

/-- C6: the request-type label is a strict first-match cascade:
SCHEDULE/MEET on meeting terms or a non-`NO_MEETING` scheduling
outcome; else PROVIDE_DOCS on expecting-attachment without
already-attached; else REVIEW/APPROVE; else EDIT/REVISE; else
PROVIDE_DOCS on generic document nouns; else INFO_ONLY. -/
theorem request_type_cascade (subject : String) (messages : List Message) :
    ((reSearch RE_MEET (allTextOf subject messages) = true
        ∨ schedulingOf subject messages ≠ "NO_MEETING") →
       (classify_labels subject messages).request_type = "SCHEDULE/MEET")
  ∧ (reSearch RE_MEET (allTextOf subject messages) = false →
     schedulingOf subject messages = "NO_MEETING" →
     reSearch RE_ATTACH_EXPECT (allTextOf subject messages) = true →
     reSearch RE_ATTACH_ATTACHED (allTextOf subject messages) = false →
       (classify_labels subject messages).request_type = "PROVIDE_DOCS")
  ∧ (reSearch RE_MEET (allTextOf subject messages) = false →
     schedulingOf subject messages = "NO_MEETING" →
     (reSearch RE_ATTACH_EXPECT (allTextOf subject messages)
        && !reSearch RE_ATTACH_ATTACHED (allTextOf subject messages)) = false →
     reSearch RE_REVIEW (allTextOf subject messages) = true →
       (classify_labels subject messages).request_type = "REVIEW/APPROVE")
  ∧ (reSearch RE_MEET (allTextOf subject messages) = false →
     schedulingOf subject messages = "NO_MEETING" →
     (reSearch RE_ATTACH_EXPECT (allTextOf subject messages)
        && !reSearch RE_ATTACH_ATTACHED (allTextOf subject messages)) = false →
     reSearch RE_REVIEW (allTextOf subject messages) = false →
     reSearch RE_EDIT (allTextOf subject messages) = true →
       (classify_labels subject messages).request_type = "EDIT/REVISE")
  ∧ (reSearch RE_MEET (allTextOf subject messages) = false →
     schedulingOf subject messages = "NO_MEETING" →
     (reSearch RE_ATTACH_EXPECT (allTextOf subject messages)
        && !reSearch RE_ATTACH_ATTACHED (allTextOf subject messages)) = false →
     reSearch RE_REVIEW (allTextOf subject messages) = false →
     reSearch RE_EDIT (allTextOf subject messages) = false →
     reSearch RE_PROVIDE_DOCS (allTextOf subject messages) = true →
       (classify_labels subject messages).request_type = "PROVIDE_DOCS")
  ∧ (reSearch RE_MEET (allTextOf subject messages) = false →
     schedulingOf subject messages = "NO_MEETING" →
     (reSearch RE_ATTACH_EXPECT (allTextOf subject messages)
        && !reSearch RE_ATTACH_ATTACHED (allTextOf subject messages)) = false →
     reSearch RE_REVIEW (allTextOf subject messages) = false →
     reSearch RE_EDIT (allTextOf subject messages) = false →
     reSearch RE_PROVIDE_DOCS (allTextOf subject messages) = false →
       (classify_labels subject messages).request_type = "INFO_ONLY") := by
  refine ⟨?_, ?_, ?_, ?_, ?_, ?_⟩
  · rintro (h | h)
    · simp [classify_labels, requestTypeOf, h]
    · rcases schedulingOf_mem subject messages with hs | hs | hs | hs
      · simp [classify_labels, requestTypeOf, hs]
      · simp [classify_labels, requestTypeOf, hs]
      · simp [classify_labels, requestTypeOf, hs]
      · exact absurd hs h
  all_goals
    intros
    simp_all [classify_labels, requestTypeOf]

/-- Witness for the C6 cascade: a body that requests a file (and has
no meeting cue, no meeting outcome, and nothing already attached)
classifies as PROVIDE_DOCS. -/
theorem request_type_cascade_witness :
    reSearch RE_MEET (allTextOf "x" [mkMsg "1" "please share the file"]) = false
  ∧ schedulingOf "x" [mkMsg "1" "please share the file"] = "NO_MEETING"
  ∧ reSearch RE_ATTACH_EXPECT (allTextOf "x" [mkMsg "1" "please share the file"]) = true
  ∧ reSearch RE_ATTACH_ATTACHED (allTextOf "x" [mkMsg "1" "please share the file"]) = false
  ∧ (classify_labels "x" [mkMsg "1" "please share the file"]).request_type
      = "PROVIDE_DOCS" :=
  ⟨by decide, by decide, by decide, by decide,
   (request_type_cascade "x" [mkMsg "1" "please share the file"]).2.1
     (by decide) (by decide) (by decide) (by decide)⟩

/-- Stability of one insertion step: filtering by a fixed timestamp
key commutes with `orderedInsert` under `msgLe` (the inserted element,
which precedes the list in the original order, lands before the
equal-key elements). -/
theorem filter_orderedInsert (x : Message) (t : String) :
    ∀ l : List Message,
      (l.orderedInsert msgLe x).filter (fun m => tsKey m == t)
        = if tsKey x == t then x :: l.filter (fun m => tsKey m == t)
          else l.filter (fun m => tsKey m == t) := by
  intro l
  induction l with
  | nil =>
    by_cases hx : tsKey x == t <;>
      simp [List.orderedInsert, List.filter_cons, hx]
  | cons y l ih =>
    rw [List.orderedInsert]
    by_cases hle : msgLe x y
    · rw [if_pos hle]
      by_cases hx : tsKey x == t <;> by_cases hy : tsKey y == t <;>
        simp [List.filter_cons, hx, hy]
    · rw [if_neg hle]
      by_cases hx : tsKey x == t <;> by_cases hy : tsKey y == t
      · exact absurd
          (le_of_eq ((eq_of_beq hx).trans (eq_of_beq hy).symm) : msgLe x y) hle
      all_goals simp [List.filter_cons, hx, hy, ih]

/-- Stability of the whole sort: filtering by a fixed timestamp key
commutes with `sort_messages`. -/
theorem filter_sort_messages (t : String) :
    ∀ l : List Message,
      (sort_messages l).filter (fun m => tsKey m == t)
        = l.filter (fun m => tsKey m == t) := by
  intro l
  induction l with
  | nil => rfl
  | cons x l ih =>
    unfold sort_messages at ih ⊢
    rw [List.insertionSort, filter_orderedInsert, List.filter_cons, ih]

/-- C5: `sort_messages` sorts ascending by the timestamp key under the
lexicographic string order (the empty key is the least string) with a
stable sort: the output is a permutation of the input, it is sorted by
`msgLe`, and for each timestamp value the subsequence of messages
carrying it equals the input's subsequence — equal timestamps keep
their relative order. -/
theorem sort_messages_stable_sorted (l : List Message) :
    (sort_messages l).Perm l
  ∧ List.Sorted msgLe (sort_messages l)
  ∧ ∀ t : String,
      (sort_messages l).filter (fun m => tsKey m == t)
        = l.filter (fun m => tsKey m == t) :=
  ⟨List.perm_insertionSort msgLe l, List.sorted_insertionSort msgLe l,
   fun t => filter_sort_messages t l⟩

/-- On a list of all-string timestamps, the first raw lookup succeeds
with the first timestamp key. -/
theorem endTs_head (msgs : List Message)
    (h : msgs.all (fun m => m.timestamp.isVal) = true) :
    endTs msgs.head? = .ok (some (firstTsOf msgs)) := by
  cases msgs with
  | nil => rfl
  | cons m rest =>
    have hm : m.timestamp.isVal = true := by
      simp only [List.all_cons, Bool.and_eq_true] at h
      exact h.1
    cases ht : m.timestamp with
    | val s => simp [endTs, getItem, firstTsOf, tsKey, ht]
    | absent => rw [ht] at hm; simp [Field.isVal] at hm
    | null => rw [ht] at hm; simp [Field.isVal] at hm

/-- The last element of a list all of whose timestamps are string
values has a string-valued timestamp. -/
theorem all_getLast?_isVal :
    ∀ (msgs : List Message) (x : Message), msgs.getLast? = some x →
      msgs.all (fun m => m.timestamp.isVal) = true → x.timestamp.isVal = true := by
  intro msgs
  induction msgs with
  | nil => intro x hx; simp at hx
  | cons m rest ih =>
    intro x hx hall
    simp only [List.all_cons, Bool.and_eq_true] at hall
    cases rest with
    | nil =>
      simp only [List.getLast?_singleton, Option.some.injEq] at hx
      rw [← hx]; exact hall.1
    | cons m' rest' =>
      rw [List.getLast?_cons_cons] at hx
      exact ih x hx hall.2

/-- On a list of all-string timestamps, the last raw lookup succeeds
with the last timestamp key. -/
theorem endTs_getLast (msgs : List Message)
    (h : msgs.all (fun m => m.timestamp.isVal) = true) :
    endTs msgs.getLast? = .ok (some (lastTsOf msgs)) := by
  cases hg : msgs.getLast? with
  | none => simp [endTs, lastTsOf, hg]
  | some x =>
    have hx := all_getLast?_isVal msgs x hg h
    cases ht : x.timestamp with
    | val s => simp [endTs, getItem, lastTsOf, tsKey, hg, ht]
    | absent => rw [ht] at hx; simp [Field.isVal] at hx
    | null => rw [ht] at hx; simp [Field.isVal] at hx

/-- The digest string always has exactly 40 characters. -/
theorem sha1Hex_length (msg : List Nat) : (sha1Hex msg).length = 40 := by
  unfold sha1Hex
  obtain ⟨a, b, c, d, e⟩ := sha1Words msg
  simp [toHex8, String.length]

/-- A hex digit of a value below 16 is a lowercase hex character. -/
theorem hexDig_mem_of_lt {n : Nat} (h : n < 16) :
    hexDig n ∈ "0123456789abcdef".data := by
  interval_cases n <;> decide

/-- Every character of `toHex8` is a lowercase hex character. -/
theorem toHex8_mem {c : Char} {n : Nat} (hc : c ∈ toHex8 n) :
    c ∈ "0123456789abcdef".data := by
  simp only [toHex8, List.mem_cons, List.not_mem_nil, or_false] at hc
  rcases hc with rfl | rfl | rfl | rfl | rfl | rfl | rfl | rfl <;>
    exact hexDig_mem_of_lt (Nat.mod_lt _ (by norm_num))

/-- Every character of the digest string is a lowercase hex
character. -/
theorem sha1Hex_chars (msg : List Nat) :
    ∀ c ∈ (sha1Hex msg).data, c ∈ "0123456789abcdef".data := by
  unfold sha1Hex
  obtain ⟨a, b, c, d, e⟩ := sha1Words msg
  intro ch hch
  change ch ∈ toHex8 a ++ toHex8 b ++ toHex8 c ++ toHex8 d ++ toHex8 e at hch
  simp only [List.mem_append] at hch
  rcases hch with ((((h | h) | h) | h) | h) <;> exact toHex8_mem h

/-- `orderedInsert` under `msgLe` commutes with mapping a
key-preserving function. -/
theorem orderedInsert_map_of_tsKey (f : Message → Message)
    (hf : ∀ m, tsKey (f m) = tsKey m) (x : Message) :
    ∀ l : List Message,
      (l.map f).orderedInsert msgLe (f x) = (l.orderedInsert msgLe x).map f := by
  intro l
  induction l with
  | nil => rfl
  | cons y l ih =>
    have hiff : msgLe (f x) (f y) ↔ msgLe x y := by
      unfold msgLe; rw [hf, hf]
    simp only [List.map_cons, List.orderedInsert]
    by_cases h : msgLe x y
    · rw [if_pos (hiff.mpr h), if_pos h, List.map_cons, List.map_cons]
    · rw [if_neg (fun hc => h (hiff.mp hc)), if_neg h, List.map_cons, ih]

/-- Sorting commutes with mapping a key-preserving function. -/
theorem sort_messages_map_of_tsKey (f : Message → Message)
    (hf : ∀ m, tsKey (f m) = tsKey m) :
    ∀ l : List Message, sort_messages (l.map f) = (sort_messages l).map f := by
  intro l
  unfold sort_messages
  induction l with
  | nil => rfl
  | cons x l ih =>
    simp only [List.map_cons, List.insertionSort, ih,
      orderedInsert_map_of_tsKey f hf]

/-- `compute_thread_id` ignores message bodies: replacing every body
leaves it unchanged. -/
theorem compute_thread_id_map_body (subject : String) (g : Message → Field String) :
    ∀ l : List Message,
      compute_thread_id subject (l.map (fun m => { m with body := g m }))
        = compute_thread_id subject l := by
  intro l
  unfold compute_thread_id
  rw [List.head?_map, List.getLast?_map]
  have he : ∀ o : Option Message,
      endTs (o.map (fun m => { m with body := g m })) = endTs o := by
    intro o; cases o <;> rfl
  rw [he, he]

/-- C4: on a thread whose timestamps are all string values (the
normalized form the claim quantifies over), `compute_thread_id`
returns the SHA-1 hex digest of the UTF-8 bytes of the subject
followed by the first and last sorted timestamps, so it depends only
on that triple; the digest is always 40 lowercase hexadecimal
characters; and changing only message bodies (before sorting) never
changes the identifier. -/
theorem thread_id_digest_of_triple :
    (∀ (subject : String) (msgs : List Message),
       msgs.all (fun m => m.timestamp.isVal) = true →
       compute_thread_id subject msgs
         = .ok (sha1Hex (utf8Bytes (subject ++ firstTsOf msgs ++ lastTsOf msgs))))
  ∧ (∀ msg : List Nat, (sha1Hex msg).length = 40
       ∧ ∀ c ∈ (sha1Hex msg).data, c ∈ "0123456789abcdef".data)
  ∧ (∀ (subject : String) (msgs : List Message) (g : Message → Field String),
       compute_thread_id subject
           (sort_messages (msgs.map (fun m => { m with body := g m })))
         = compute_thread_id subject (sort_messages msgs)) := by
  refine ⟨?_, ?_, ?_⟩
  · intro subject msgs h
    unfold compute_thread_id
    rw [endTs_head msgs h, endTs_getLast msgs h]
  · intro msg
    exact ⟨sha1Hex_length msg, sha1Hex_chars msg⟩
  · intro subject msgs g
    rw [sort_messages_map_of_tsKey (fun m => { m with body := g m }) (fun m => rfl),
        compute_thread_id_map_body]

/-- Witness for C4 at a concrete two-message thread with string
timestamps. -/
theorem thread_id_digest_of_triple_witness :
    ([mkMsg "2" "b", mkMsg "1" "a"].all (fun m => m.timestamp.isVal) = true)
  ∧ compute_thread_id "s" [mkMsg "2" "b", mkMsg "1" "a"]
      = .ok (sha1Hex (utf8Bytes ("s" ++ firstTsOf [mkMsg "2" "b", mkMsg "1" "a"]
                                     ++ lastTsOf [mkMsg "2" "b", mkMsg "1" "a"]))) :=
  ⟨by decide, thread_id_digest_of_triple.1 "s" [mkMsg "2" "b", mkMsg "1" "a"] (by decide)⟩

/-- C9 counterexample: the claim states that the caller's input is
unchanged after `classify_thread` returns.  It is not: for a thread
holding one message with all fields absent, the `setdefault` calls add
the four default fields to the caller's message dict, so the input
differs afterwards. -/
theorem classify_mutates_input :
    inputAfterClassify (.obj (.val { subject := .absent, messages := .val [emptyMsg] }))
      ≠ .obj (.val { subject := .absent, messages := .val [emptyMsg] }) := by
  decide

/-- C9 amended: `classify_thread` leaves its input unchanged *except*
that each message record in the caller's messages list is normalized
in place; and that normalization only fills absent fields with their
defaults — a present field (null or valued) is never modified, and no
field is removed. -/
theorem classify_mutation_only_fills_absent (data : TopData) :
    (inputAfterClassify data = data
      ∨ ∃ t l, data = .obj (.val t) ∧ t.messages = .val l ∧
          inputAfterClassify data
            = .obj (.val { t with messages := .val (l.map normalizeMsg) }))
  ∧ ∀ m : Message,
      (normalizeMsg m).timestamp
          = (if m.timestamp = .absent then .val "" else m.timestamp)
    ∧ (normalizeMsg m).sender = (if m.sender = .absent then .val "" else m.sender)
    ∧ (normalizeMsg m).recipients
          = (if m.recipients = .absent then .val [] else m.recipients)
    ∧ (normalizeMsg m).body = (if m.body = .absent then .val "" else m.body) := by
  constructor
  · match data with
    | .null => exact .inl rfl
    | .obj .absent => exact .inl rfl
    | .obj .null => exact .inl rfl
    | .obj (.val t) =>
      match ht : t.messages with
      | .absent => exact .inl (by simp [inputAfterClassify, ht])
      | .null => exact .inl (by simp [inputAfterClassify, ht])
      | .val l => exact .inr ⟨t, l, rfl, ht, by simp [inputAfterClassify, ht]⟩
  · intro m
    refine ⟨?_, ?_, ?_, ?_⟩
    · cases h : m.timestamp <;> simp [normalizeMsg, setdefault, h]
    · cases h : m.sender <;> simp [normalizeMsg, setdefault, h]
    · cases h : m.recipients <;> simp [normalizeMsg, setdefault, h]
    · cases h : m.body <;> simp [normalizeMsg, setdefault, h]

/-- Witness for C5 at a concrete three-message list with a duplicated
timestamp key. -/
theorem sort_messages_stable_sorted_witness :
    (sort_messages [mkMsg "2" "b", mkMsg "1" "a", mkMsg "1" "c"]).Perm
        [mkMsg "2" "b", mkMsg "1" "a", mkMsg "1" "c"]
  ∧ List.Sorted msgLe (sort_messages [mkMsg "2" "b", mkMsg "1" "a", mkMsg "1" "c"])
  ∧ ∀ t : String,
      (sort_messages [mkMsg "2" "b", mkMsg "1" "a", mkMsg "1" "c"]).filter
          (fun m => tsKey m == t)
        = [mkMsg "2" "b", mkMsg "1" "a", mkMsg "1" "c"].filter (fun m => tsKey m == t) :=
  sort_messages_stable_sorted [mkMsg "2" "b", mkMsg "1" "a", mkMsg "1" "c"]

/-- Witness for C7 at a concrete thread that mentions an attachment
and also requests one. -/
theorem attachments_never_empty_witness :
    (classify_labels "x" [mkMsg "1" "attached is the doc, please send the file"]).attachments
        ≠ []
  ∧ "ATTACHED" ∈
      (classify_labels "x" [mkMsg "1" "attached is the doc, please send the file"]).attachments :=
  ⟨(attachments_never_empty "x" [mkMsg "1" "attached is the doc, please send the file"]).1,
   ((attachments_never_empty "x" [mkMsg "1" "attached is the doc, please send the file"]).2.1).mpr
     (by decide)⟩

end EmailClassifier

